import Mathlib

/-!
Shallow embedding of the game-state core of `game2.py` (an interactive
narrative engine built on a text generator).  Pure Python functions become
Lean functions; the Streamlit session dictionary becomes an explicit
`SessionState` record that is threaded through the turn controller; the
external generator call is a parameter of type `Except String String`
(its success text or its failure).  Python strings are modelled by Lean
`String`; `str.lower` and the `in` substring test are modelled character
by character on the underlying `List Char` (the texts involved are ASCII).
-/

/-- ASCII lower-casing of one character, as Python `str.lower` acts on the
ASCII range used by the program. -/
def lowerChar (c : Char) : Char :=
  if 'A' ≤ c ∧ c ≤ 'Z' then Char.ofNat (c.toNat + 32) else c

/-- Lower-casing of a string, modelling `response_text.lower()`. -/
def strLower (s : String) : String :=
  ⟨s.data.map lowerChar⟩

/-- Does the character list `hay` start with `needle`? -/
def startsWithL : List Char → List Char → Bool
  | [], _ => true
  | _ :: _, [] => false
  | a :: as, b :: bs => a == b && startsWithL as bs

/-- Substring test on character lists: Python `needle in hay`. -/
def containsL (needle : List Char) : List Char → Bool
  | [] => needle.isEmpty
  | b :: t => startsWithL needle (b :: t) || containsL needle t

/-- Python `needle in hay` on strings. -/
def strContains (needle hay : String) : Bool :=
  containsL needle.data hay.data

/-- The mutable game-state dictionary `st.session_state.game_state`:
health, inventory, choices_made, found_item. -/
@[ext]
structure GameState where
  health : Int
  inventory : List String
  choicesMade : Nat
  foundItem : Option String
  deriving DecidableEq

/-- One conversation turn: role ("user" or "model") and its text. -/
@[ext]
structure Turn where
  role : String
  text : String
  deriving DecidableEq

/-- The session dictionary: conversation_history, messages, game_state. -/
@[ext]
structure SessionState where
  conversationHistory : List Turn
  messages : List Turn
  gameState : GameState
  deriving DecidableEq

/-- The fixed danger vocabulary `dangerous_actions` of `update_game_state`. -/
def dangerous_actions : List String :=
  ["fight", "confront", "explore", "approach", "follow", "ignore warning",
   "trap", "venture deeper"]

/-- The fixed item catalog `inventory_items` of `update_game_state`:
item identifier paired with its notification phrase, in the Python dict
insertion order. -/
def inventory_items : List (String × String) :=
  [("potion", "You found a **potion**!"),
   ("sword", "You found a **sword**!"),
   ("key", "You found a **key**!"),
   ("map", "You found a **map**!"),
   ("shield", "You found a **shield**!"),
   ("amulet", "You found an **amulet**!"),
   ("health_potion", "You found a **health potion**!")]

/-- `update_game_state(response_text)`: the danger scan subtracts 15 per
keyword found in the lower-cased text, the result is clamped below at 0,
then the item scan walks the catalog in order and, on each marker match
`**item**`, overwrites `found_item` and increments `choices_made`. -/
def update_game_state (response_text : String) (gs : GameState) : GameState :=
  let lower := strLower response_text
  let gs1 := dangerous_actions.foldl
    (fun g action =>
      if strContains action lower then { g with health := g.health - 15 } else g)
    gs
  let gs2 := { gs1 with health := max gs1.health 0 }
  inventory_items.foldl
    (fun g p =>
      if strContains ("**" ++ p.1 ++ "**") lower then
        { g with foundItem := some p.1, choicesMade := g.choicesMade + 1 }
      else g)
    gs2

/-- `add_item_to_inventory()`: if `found_item` is a truthy identifier not
already in the inventory, append it and clear `found_item`; otherwise do
nothing. -/
def add_item_to_inventory (gs : GameState) : GameState :=
  match gs.foundItem with
  | none => gs
  | some item =>
    if item ≠ "" ∧ item ∉ gs.inventory then
      { gs with inventory := gs.inventory ++ [item], foundItem := none }
    else gs

/-- `use_health_potion()`: with a `health_potion` in inventory, add 30
health clamped at 100 and remove the first `health_potion`; the Bool
records success (`st.success`) versus the error message (`st.error`). -/
def use_health_potion (gs : GameState) : GameState × Bool :=
  if "health_potion" ∈ gs.inventory then
    ({ gs with health := min (gs.health + 30) 100,
               inventory := gs.inventory.erase "health_potion" }, true)
  else (gs, false)

/-- The fixed fallback text returned by `generate_story_response` when the
generator raises. -/
def fallbackText : String :=
  "Something went wrong in the forest... Please try again."

/-- `generate_story_response`: the generator outcome is external, so it is
a parameter; on failure the error is shown (`true` in the second
component) and the fallback text is returned. -/
def generate_story_response (outcome : Except String String) : String × Bool :=
  match outcome with
  | Except.ok t => (t, false)
  | Except.error _ => (fallbackText, true)

/-- The `if user_input:` branch of `main`: append the player turn to both
history lists, increment `choices_made`, obtain the response text, run
`update_game_state` on it, and append the narrator turn carrying the
response text. -/
def process_user_input (outcome : Except String String) (userInput : String)
    (s : SessionState) : SessionState :=
  let userTurn : Turn := ⟨"user", userInput⟩
  let s1 : SessionState :=
    { conversationHistory := s.conversationHistory ++ [userTurn],
      messages := s.messages ++ [userTurn],
      gameState := { s.gameState with choicesMade := s.gameState.choicesMade + 1 } }
  let response := (generate_story_response outcome).1
  let gs2 := update_game_state response s1.gameState
  let aiTurn : Turn := ⟨"model", response⟩
  { conversationHistory := s1.conversationHistory ++ [aiTurn],
    messages := s1.messages ++ [aiTurn],
    gameState := gs2 }

/-- The initial game state installed by `initialize_session_state`. -/
def initGameState : GameState :=
  { health := 100, inventory := [], choicesMade := 0, foundItem := none }

/-- The introduction text of the hard-coded `intro_message` in `main`. -/
def introText : String :=
  "Welcome, brave soul! You are Kaelen, a wanderer who finds yourself lost in the mysterious Cursed Forest. Strange creatures, hidden dangers, and an ancient curse lurk in the shadows. Legend has it that the heart of the forest holds a powerful artifact, but no one who has ventured deep enough has ever returned.\n\nYour adventure begins at the edge of the forest, where an eerie fog hangs in the air. You notice:\n\n1. A narrow path leading deeper into the woods\n2. A strange glowing mushroom near a hollow tree\n3. The sound of running water in the distance\n\nWhat would you like to do?"

/-- The hard-coded introduction turn, authored by the narrator role. -/
def introTurn : Turn := ⟨"model", introText⟩

/-- The session dictionary before `initialize_session_state`: each key may
be present or missing (missing after `st.session_state.clear()`). -/
structure RawSession where
  conversationHistory : Option (List Turn)
  messages : Option (List Turn)
  gameState : Option GameState

/-- `initialize_session_state()`: install the default for every missing
key. -/
def initialize_session_state (r : RawSession) : SessionState :=
  { conversationHistory := r.conversationHistory.getD [],
    messages := r.messages.getD [],
    gameState := r.gameState.getD initGameState }

/-- The start of `main` on a page run: initialize the session keys and,
when the conversation history is empty, append the introduction turn to
both history lists. -/
def run_page (r : RawSession) : SessionState :=
  let s := initialize_session_state r
  if s.conversationHistory.isEmpty then
    { s with conversationHistory := s.conversationHistory ++ [introTurn],
             messages := s.messages ++ [introTurn] }
  else s

/-- Restart (`st.session_state.clear()` followed by `st.rerun()`): the
next page run starts from an empty raw session. -/
def restart_session : SessionState :=
  run_page { conversationHistory := none, messages := none, gameState := none }

/-- Distinct danger keywords present in the lower-cased text. -/
def numDanger (t : String) : Nat :=
  (dangerous_actions.filter (fun a => strContains a (strLower t))).length

/-- Catalog items whose marker form occurs in the lower-cased text, in
catalog order. -/
def matchedItems (t : String) : List String :=
  ((inventory_items.filter
      (fun p => strContains ("**" ++ p.1 ++ "**") (strLower t))).map Prod.fst)

/-- Last element of the list, or the default when the list is empty;
mirrors repeated overwriting of `found_item` by the item-scan loop. -/
def lastOpt (d : Option String) : List String → Option String
  | [] => d
  | a :: l => lastOpt (some a) l

/-- The danger loop subtracts 15 from health once per keyword of `L`
contained in `t`, and changes nothing else. -/
lemma danger_loop (t : String) : ∀ (L : List String) (g : GameState),
    L.foldl
      (fun g action =>
        if strContains action t then { g with health := g.health - 15 } else g)
      g
    = { g with
        health := g.health - 15 * ((L.filter (fun a => strContains a t)).length : Int) } := by
  intro L
  induction L with
  | nil =>
    intro g
    simp
  | cons a L ih =>
    intro g
    rcases g with ⟨h, inv, c, f⟩
    cases hsc : strContains a t with
    | false => simp [List.foldl_cons, hsc, List.filter_cons, ih]
    | true =>
      simp [List.foldl_cons, hsc, List.filter_cons, ih]
      omega

/-- The item loop overwrites `foundItem` with each matching catalog key in
order and increments `choicesMade` once per match, and changes nothing
else. -/
lemma item_loop (t : String) : ∀ (L : List (String × String)) (g : GameState),
    L.foldl
      (fun g p =>
        if strContains ("**" ++ p.1 ++ "**") t then
          { g with foundItem := some p.1, choicesMade := g.choicesMade + 1 }
        else g)
      g
    = { g with
        foundItem :=
          lastOpt g.foundItem
            ((L.filter (fun p => strContains ("**" ++ p.1 ++ "**") t)).map Prod.fst),
        choicesMade :=
          g.choicesMade +
            ((L.filter (fun p => strContains ("**" ++ p.1 ++ "**") t)).map Prod.fst).length } := by
  intro L
  induction L with
  | nil =>
    intro g
    simp [lastOpt]
  | cons a L ih =>
    intro g
    rcases g with ⟨h, inv, c, f⟩
    cases hsc : strContains ("**" ++ a.1 ++ "**") t with
    | false => simp [List.foldl_cons, hsc, List.filter_cons, ih, lastOpt]
    | true =>
      simp [List.foldl_cons, hsc, List.filter_cons, ih, lastOpt]
      omega

/-- Net effect of `update_game_state`: health drops 15 per present danger
keyword and is clamped at 0; `foundItem` becomes the last matched catalog
entry (unchanged when none matches); `choicesMade` grows by the number of
matched entries; the inventory is untouched. -/
lemma update_game_state_eq (t : String) (gs : GameState) :
    update_game_state t gs =
      { gs with
        health := max (gs.health - 15 * (numDanger t : Int)) 0,
        foundItem := lastOpt gs.foundItem (matchedItems t),
        choicesMade := gs.choicesMade + (matchedItems t).length } := by
  simp only [update_game_state]
  rw [item_loop, danger_loop]
  rcases gs with ⟨h, inv, c, f⟩
  simp [numDanger, matchedItems]

/-- When the list has a last element, `lastOpt` returns it whatever the
default. -/
lemma lastOpt_eq_some : ∀ (l : List String) (d : Option String) (i : String),
    l.getLast? = some i → lastOpt d l = some i := by
  intro l
  induction l with
  | nil => intro d i h; simp at h
  | cons a l ih =>
    intro d i h
    cases l with
    | nil =>
      simp at h
      simp [lastOpt, h]
    | cons b l2 =>
      rw [List.getLast?_cons_cons] at h
      exact ih (some a) i h

/-- A value produced by `lastOpt` is an element of the list or the
default. -/
lemma lastOpt_mem : ∀ (l : List String) (d : Option String) (x : String),
    lastOpt d l = some x → x ∈ l ∨ d = some x := by
  intro l
  induction l with
  | nil => intro d x h; exact Or.inr h
  | cons a l ih =>
    intro d x h
    rcases ih (some a) x h with hm | hd
    · exact Or.inl (List.mem_cons_of_mem a hm)
    · rcases Option.some_inj.mp hd with rfl
      exact Or.inl (List.mem_cons_self a l)

/-- C3: for every response text and starting health in [0,100], health
after the danger scan is max (h - 15 * N) 0 where N is the number of
distinct danger keywords occurring in the case-normalized text, and the
result stays within [0,100]. -/
theorem danger_scan_health_formula (t : String) (gs : GameState)
    (h0 : 0 ≤ gs.health) (h1 : gs.health ≤ 100) :
    (update_game_state t gs).health = max (gs.health - 15 * (numDanger t : Int)) 0 ∧
    0 ≤ (update_game_state t gs).health ∧
    (update_game_state t gs).health ≤ 100 := by
  rw [update_game_state_eq]
  refine ⟨rfl, le_max_right _ _, ?_⟩
  have hc : (0 : Int) ≤ 15 * (numDanger t : Int) := by positivity
  simp only [max_le_iff]
  omega

/-- Witness for C3 at a text containing the keywords fight and trap. -/
theorem danger_scan_health_formula_wit :
    (0 : Int) ≤ initGameState.health ∧ initGameState.health ≤ 100 ∧
    (update_game_state "You fight the beast and spring a trap!" initGameState).health
      = max (initGameState.health
          - 15 * (numDanger "You fight the beast and spring a trap!" : Int)) 0 :=
  ⟨by decide, by decide,
    (danger_scan_health_formula "You fight the beast and spring a trap!" initGameState
      (by decide) (by decide)).1⟩

/-- C4: use_health_potion fails exactly when no health_potion is in the
inventory, failure changes nothing, and success adds 30 health clamped at
100 and removes exactly one health_potion instance, leaving the counts of
all other items unchanged. -/
theorem use_health_potion_spec (gs : GameState) :
    ("health_potion" ∉ gs.inventory → use_health_potion gs = (gs, false)) ∧
    ((use_health_potion gs).2 = false ↔ "health_potion" ∉ gs.inventory) ∧
    ("health_potion" ∈ gs.inventory →
      use_health_potion gs =
        ({ gs with health := min (gs.health + 30) 100,
                   inventory := gs.inventory.erase "health_potion" }, true) ∧
      ((gs.inventory.erase "health_potion").count "health_potion" + 1
          = gs.inventory.count "health_potion") ∧
      (∀ x : String, x ≠ "health_potion" →
        (gs.inventory.erase "health_potion").count x = gs.inventory.count x)) := by
  by_cases hm : "health_potion" ∈ gs.inventory
  · refine ⟨fun h => absurd hm h, ?_, fun _ => ⟨?_, ?_, ?_⟩⟩
    · simp [use_health_potion, hm]
    · simp [use_health_potion, hm]
    · have hpos : 0 < gs.inventory.count "health_potion" := List.count_pos_iff.mpr hm
      rw [List.count_erase_self]
      omega
    · intro x hx
      exact List.count_erase_of_ne hx _
  · refine ⟨fun _ => ?_, ?_, fun h => absurd h hm⟩
    · simp [use_health_potion, hm]
    · simp [use_health_potion, hm]

/-- Witness for C4 on an inventory holding one health_potion. -/
theorem use_health_potion_spec_wit :
    use_health_potion ⟨50, ["health_potion", "sword"], 2, none⟩
      = (⟨80, ["sword"], 2, none⟩, true) := by
  have h := (use_health_potion_spec ⟨50, ["health_potion", "sword"], 2, none⟩).2.2 (by decide)
  rw [h.1]
  decide

/-- C9: the fallback text carries no danger keyword and no marked catalog
item, so interpreting it leaves the whole game state unchanged. -/
theorem fallback_text_inert (gs : GameState) (h0 : 0 ≤ gs.health) :
    numDanger fallbackText = 0 ∧
    matchedItems fallbackText = [] ∧
    update_game_state fallbackText gs = gs := by
  have hN : numDanger fallbackText = 0 := by decide
  have hM : matchedItems fallbackText = [] := by decide
  refine ⟨hN, hM, ?_⟩
  rcases gs with ⟨h, i, c, f⟩
  dsimp only at h0
  rw [update_game_state_eq, hN, hM]
  simp [lastOpt]
  omega

/-- Witness for C9 at the initial game state. -/
theorem fallback_text_inert_wit :
    update_game_state fallbackText initGameState = initGameState :=
  (fallback_text_inert initGameState (by decide)).2.2

/-- C1 counterexample: with both marked sword and map in the text, the
item loop leaves foundItem at the later catalog entry map, not the first
entry sword, and the scan increments choicesMade twice, not once. -/
theorem item_scan_first_wins_cex :
    (update_game_state "You found a **sword** and a **map**!"
        ⟨100, [], 0, none⟩).foundItem = some "map" ∧
    (update_game_state "You found a **sword** and a **map**!"
        ⟨100, [], 0, none⟩).foundItem ≠ some "sword" ∧
    (update_game_state "You found a **sword** and a **map**!"
        ⟨100, [], 0, none⟩).choicesMade = 2 := by
  decide

/-- C1 amended: the scan ends with foundItem holding the LAST catalog
entry (in fixed enumeration order) whose marked form appears in the text,
unchanged when none matches, and choicesMade grows by one PER matching
catalog entry. -/
theorem item_scan_last_match_wins (t : String) (gs : GameState) :
    (update_game_state t gs).choicesMade = gs.choicesMade + (matchedItems t).length ∧
    (matchedItems t = [] → (update_game_state t gs).foundItem = gs.foundItem) ∧
    (∀ i : String, (matchedItems t).getLast? = some i →
      (update_game_state t gs).foundItem = some i) := by
  rw [update_game_state_eq]
  refine ⟨rfl, ?_, ?_⟩
  · intro h
    simp [h, lastOpt]
  · intro i h
    exact lastOpt_eq_some _ gs.foundItem i h

/-- Witness for the amended C1 on the sword-and-map text. -/
theorem item_scan_last_match_wins_wit :
    (update_game_state "You found a **sword** and a **map**!" initGameState).foundItem
      = some "map" :=
  (item_scan_last_match_wins "You found a **sword** and a **map**!" initGameState).2.2
    "map" (by decide)

/-- C5 counterexample: the item scan sets foundItem to sword even though
sword is already in the inventory, so the claimed invariant fails. -/
theorem set_found_item_inventory_cex :
    (update_game_state "A **sword** lies here." ⟨100, ["sword"], 0, none⟩).foundItem
        = some "sword" ∧
    "sword" ∈ (update_game_state "A **sword** lies here."
        ⟨100, ["sword"], 0, none⟩).inventory := by
  decide

/-- C5 amended: the narrative scan sets foundItem unconditionally on a
marker match, inventory notwithstanding; the duplicate guard lives only in
the pickup operation, which is a no-op for an item already held and which
preserves inventory distinctness. -/
theorem found_item_guard_at_pickup (t : String) (gs : GameState) (i : String) :
    ((matchedItems t).getLast? = some i → (update_game_state t gs).foundItem = some i) ∧
    (gs.foundItem = some i → i ∈ gs.inventory → add_item_to_inventory gs = gs) ∧
    (gs.inventory.Nodup → (add_item_to_inventory gs).inventory.Nodup) := by
  refine ⟨?_, ?_, ?_⟩
  · intro h
    rw [update_game_state_eq]
    exact lastOpt_eq_some _ gs.foundItem i h
  · intro hf hm
    simp [add_item_to_inventory, hf, hm]
  · intro hn
    unfold add_item_to_inventory
    cases hf : gs.foundItem with
    | none => exact hn
    | some j =>
      by_cases hc : j ≠ "" ∧ j ∉ gs.inventory
      · rcases hc with ⟨hne, hni⟩
        simp [hne, hni, List.nodup_append, hn]
      · simp only [if_neg hc]
        exact hn

/-- Witness for the amended C5: a marked sword is recorded as foundItem
even while sword is already in the inventory. -/
theorem found_item_guard_at_pickup_wit :
    (update_game_state "A **sword** gleams." ⟨100, ["sword"], 0, none⟩).foundItem
      = some "sword" :=
  (found_item_guard_at_pickup "A **sword** gleams." ⟨100, ["sword"], 0, none⟩ "sword").1
    (by decide)

/-- C6 counterexample: picking up a pending sword moves it into the
inventory and clears foundItem, but choicesMade stays at 0 instead of
incrementing to 1. -/
theorem pickup_choices_cex :
    add_item_to_inventory ⟨100, [], 0, some "sword"⟩
        = ⟨100, ["sword"], 0, none⟩ ∧
    (add_item_to_inventory ⟨100, [], 0, some "sword"⟩).choicesMade
        ≠ (⟨100, [], 0, some "sword"⟩ : GameState).choicesMade + 1 := by
  decide

/-- C6 amended: when foundItem holds a nonempty item not already in the
inventory, pickup appends it and clears foundItem; when foundItem is
empty, or the item is already held, pickup changes nothing; choicesMade
and health are never touched by pickup. -/
theorem add_item_to_inventory_spec (gs : GameState) :
    (gs.foundItem = none → add_item_to_inventory gs = gs) ∧
    (∀ i : String, gs.foundItem = some i → i ≠ "" → i ∉ gs.inventory →
      add_item_to_inventory gs
        = { gs with inventory := gs.inventory ++ [i], foundItem := none }) ∧
    (∀ i : String, gs.foundItem = some i → i ∈ gs.inventory →
      add_item_to_inventory gs = gs) ∧
    (add_item_to_inventory gs).choicesMade = gs.choicesMade ∧
    (add_item_to_inventory gs).health = gs.health := by
  refine ⟨?_, ?_, ?_, ?_, ?_⟩
  · intro h
    simp [add_item_to_inventory, h]
  · intro i hf hne hni
    simp [add_item_to_inventory, hf, hne, hni]
  · intro i hf hm
    simp [add_item_to_inventory, hf, hm]
  · unfold add_item_to_inventory
    cases hf : gs.foundItem with
    | none => rfl
    | some j =>
      by_cases hc : j ≠ "" ∧ j ∉ gs.inventory
      · simp [hc]
      · simp [hc]
  · unfold add_item_to_inventory
    cases hf : gs.foundItem with
    | none => rfl
    | some j =>
      by_cases hc : j ≠ "" ∧ j ∉ gs.inventory
      · simp [hc]
      · simp [hc]

/-- Witness for the amended C6 on a pending key. -/
theorem add_item_to_inventory_spec_wit :
    add_item_to_inventory ⟨100, [], 5, some "key"⟩
      = ⟨100, ["key"], 5, none⟩ := by
  have h := (add_item_to_inventory_spec ⟨100, [], 5, some "key"⟩).2.1 "key"
    rfl (by decide) (by decide)
  rw [h]
  decide

/-- C2 counterexample: after a generator failure the turn does append a
narrator turn, the one carrying the fallback text, contrary to the claim
that no narrator turn is appended. -/
theorem generation_failure_appends_fallback_cex :
    (process_user_input (Except.error "boom") "go north"
        ⟨[⟨"model", "hi"⟩], [⟨"model", "hi"⟩], ⟨100, [], 0, none⟩⟩).conversationHistory
      = [⟨"model", "hi"⟩, ⟨"user", "go north"⟩, ⟨"model", fallbackText⟩] ∧
    (process_user_input (Except.error "boom") "go north"
        ⟨[⟨"model", "hi"⟩], [⟨"model", "hi"⟩], ⟨100, [], 0, none⟩⟩).conversationHistory
      ≠ [⟨"model", "hi"⟩, ⟨"user", "go north"⟩] := by
  decide

/-- C2 amended: on generator failure the error is reported and the turn
proceeds with the fallback text: the player turn AND a narrator turn
carrying the fallback text are appended, while health, inventory and
foundItem stay unchanged and choicesMade grows only by the player-action
increment, leaving the session continuable. -/
theorem generation_failure_turn (e input : String) (s : SessionState)
    (h0 : 0 ≤ s.gameState.health) :
    (generate_story_response (Except.error e)).2 = true ∧
    (process_user_input (Except.error e) input s).gameState.health
        = s.gameState.health ∧
    (process_user_input (Except.error e) input s).gameState.inventory
        = s.gameState.inventory ∧
    (process_user_input (Except.error e) input s).gameState.foundItem
        = s.gameState.foundItem ∧
    (process_user_input (Except.error e) input s).gameState.choicesMade
        = s.gameState.choicesMade + 1 ∧
    (process_user_input (Except.error e) input s).conversationHistory
        = s.conversationHistory ++ [⟨"user", input⟩, ⟨"model", fallbackText⟩] ∧
    (process_user_input (Except.error e) input s).messages
        = s.messages ++ [⟨"user", input⟩, ⟨"model", fallbackText⟩] := by
  have hN : numDanger fallbackText = 0 := by decide
  have hM : matchedItems fallbackText = [] := by decide
  rcases s with ⟨hist, msgs, gs⟩
  rcases gs with ⟨h, inv, c, f⟩
  dsimp only at h0
  simp only [process_user_input, generate_story_response]
  rw [update_game_state_eq, hN, hM]
  simp [lastOpt]
  omega

/-- Witness for the amended C2 on a fresh session. -/
theorem generation_failure_turn_wit :
    (process_user_input (Except.error "timeout") "look around"
        ⟨[], [], initGameState⟩).gameState.health = initGameState.health ∧
    (process_user_input (Except.error "timeout") "look around"
        ⟨[], [], initGameState⟩).gameState.choicesMade
      = initGameState.choicesMade + 1 := by
  have h := generation_failure_turn "timeout" "look around" ⟨[], [], initGameState⟩
    (by decide)
  exact ⟨h.2.1, h.2.2.2.2.1⟩

/-- C7: starting from health 100 with the player submitting the explore
action and the generator answering with a text whose only danger keyword
is explore and whose only marked catalog item is potion, the turn ends
with health 85, foundItem potion and choicesMade two higher. -/
theorem end_to_end_explore_potion (s : SessionState)
    (h : s.gameState.health = 100) :
    (process_user_input (Except.ok "You explore the path and find a **potion**!")
        "explore the path" s).gameState.health = 85 ∧
    (process_user_input (Except.ok "You explore the path and find a **potion**!")
        "explore the path" s).gameState.foundItem = some "potion" ∧
    (process_user_input (Except.ok "You explore the path and find a **potion**!")
        "explore the path" s).gameState.choicesMade
      = s.gameState.choicesMade + 2 := by
  have hN : numDanger "You explore the path and find a **potion**!" = 1 := by decide
  have hM : matchedItems "You explore the path and find a **potion**!" = ["potion"] := by
    decide
  rcases s with ⟨hist, msgs, gs⟩
  rcases gs with ⟨hh, inv, c, f⟩
  dsimp only at h
  subst h
  simp only [process_user_input, generate_story_response]
  rw [update_game_state_eq, hN, hM]
  simp [lastOpt]

/-- Witness for C7 on a fresh session at full health. -/
theorem end_to_end_explore_potion_wit :
    (process_user_input (Except.ok "You explore the path and find a **potion**!")
        "explore the path" ⟨[], [], initGameState⟩).gameState.foundItem
      = some "potion" :=
  (end_to_end_explore_potion ⟨[], [], initGameState⟩ rfl).2.1

/-- C8: restarting (clearing the session and re-running the page) yields
the initial game state of health 100, empty inventory, zero choices and no
pending item, and both history lists hold exactly the narrator-authored
introduction turn. -/
theorem restart_resets_session :
    restart_session.gameState
        = { health := 100, inventory := [], choicesMade := 0, foundItem := none } ∧
    restart_session.conversationHistory = [introTurn] ∧
    restart_session.messages = [introTurn] ∧
    introTurn.role = "model" :=
  ⟨rfl, rfl, rfl, rfl⟩

/-- C10: the health_potion catalog entry is detected only through the
literal underscore marker: when the lower-cased text lacks the substring
enclosing health_potion in double asterisks, the scan never reports
health_potion, and in particular the catalog discovery phrase spelling it
with a space leaves foundItem untouched. -/
theorem health_potion_marker_literal (t : String) (gs : GameState)
    (hu : strContains "**health_potion**" (strLower t) = false)
    (hf : gs.foundItem ≠ some "health_potion") :
    (update_game_state t gs).foundItem ≠ some "health_potion" ∧
    (update_game_state "You found a **health potion**!" gs).foundItem
        = gs.foundItem := by
  constructor
  · rw [update_game_state_eq]
    intro hcontra
    have hcontra2 : lastOpt gs.foundItem (matchedItems t) = some "health_potion" :=
      hcontra
    rcases lastOpt_mem _ _ _ hcontra2 with hmem | hd
    · rcases List.mem_map.mp hmem with ⟨p, hp, hp1⟩
      have hcond := (List.mem_filter.mp hp).2
      rw [hp1] at hcond
      have hlit : ("**health_potion**" : String) = "**" ++ "health_potion" ++ "**" := by
        decide
      rw [← hlit] at hcond
      rw [hcond] at hu
      simp at hu
    · exact hf hd
  · have hM : matchedItems "You found a **health potion**!" = [] := by decide
    rw [update_game_state_eq, hM]
    rfl

/-- Witness for C10 at the discovery phrase of the catalog itself. -/
theorem health_potion_marker_literal_wit :
    (update_game_state "You found a **health potion**!" initGameState).foundItem
      ≠ some "health_potion" :=
  (health_potion_marker_literal "You found a **health potion**!" initGameState
    (by decide) (by decide)).1

example : strContains "explore" (strLower "You EXPLORE the path") = true := by decide
example : strContains "**sword**" (strLower "A **sword** lies here.") = true := by decide
example : strContains "**potion**" (strLower "a **health potion**!") = false := by decide
example : numDanger fallbackText = 0 := by decide
example : matchedItems "You found a **sword** and a **map**!" = ["sword", "map"] := by decide
